import Mathlib

/-
Shallow embedding of `jinja2_sanic/__init__.py` (jinja2-sanic 0.1.2).

Python dicts are modelled as association lists with first-match lookup and
in-place overwrite on insert; `dict.update` / `dict(d, **m)` become a left
fold of inserts, so later entries of `m` win, matching Python semantics.
Async functions (context processors, handlers) become pure functions: the
code awaits each one to completion sequentially, so the event loop adds no
observable behaviour. `ServerError(msg, status_code)` becomes a record, and
fallible functions return `Except ServerError _`.
-/

set_option autoImplicit false

namespace Jinja2Sanic

/-- Template-context values (numbers, strings, and references to an
application object, identified by its `appId`). -/
inductive Val where
  | num : Nat → Val
  | str : String → Val
  | appRef : Nat → Val
deriving DecidableEq, Repr

/-- A rendering context: a Python dict with string keys, modelled as an
association list whose key order is Python dict insertion order. -/
abbrev Ctx := List (String × Val)

/-- First-match lookup in an association list (Python `d[k]` / `d.get(k)`). -/
def alookup {α : Type} : List (String × α) → String → Option α
  | [], _ => none
  | (k, v) :: rest, key => if k = key then some v else alookup rest key

/-- Python `d[k] = v`: overwrite the first binding of `key` in place, or
append a new binding at the end (insertion order preserved). -/
def ainsert {α : Type} : List (String × α) → String → α → List (String × α)
  | [], key, v => [(key, v)]
  | (k, w) :: rest, key, v =>
      if k = key then (key, v) :: rest else (k, w) :: ainsert rest key v

/-- Python `d.update(m)` / `dict(d, **m)`: fold the entries of `m` into `d`,
later entries overwriting earlier bindings. -/
def aupdate {α : Type} (d : List (String × α)) (m : List (String × α)) :
    List (String × α) :=
  m.foldl (fun acc kv => ainsert acc kv.1 kv.2) d

/-- A compiled template handle: jinja2's `Template.render` is opaque to this
layer, so a template is any function from a context to rendered text. -/
abbrev Tmpl := Ctx → String

/-- A jinja2 `Environment`: identity of the instance plus its mutable
`filters`, `globals` and template-lookup tables. Filters are opaque
callables, identified by numeric ids. -/
structure Env where
  envId : Nat
  filters : List (String × Nat)
  globals : List (String × Val)
  templates : List (String × Tmpl)

/-- Constant `APP_CONTEXT_PROCESSORS_KEY` from the source. -/
def APP_CONTEXT_PROCESSORS_KEY : String := "sanic_jinja2_context_processors"

/-- Constant `APP_KEY` from the source. -/
def APP_KEY : String := "sanic_jinja2_environment"

/-- Constant `REQUEST_CONTEXT_KEY` from the source. -/
def REQUEST_CONTEXT_KEY : String := "sanic_jinja2_context"

/-- The data of a request that context processors can observe: the
request-scoped key/value store (where the per-request context lives under
`REQUEST_CONTEXT_KEY`) and the request's own attributes. -/
structure RequestData where
  store : List (String × Ctx)
  payload : Ctx
deriving Repr

/-- A context processor: an async function of the request producing a
mapping (modelled on the request's data, which excludes the application so
that the model stays well-founded). -/
abbrev Proc := RequestData → Ctx

/-- A request-middleware entry. The source only ever appends the single
function `context_processors_middleware`, so one constructor suffices to
count occurrences in the pipeline. -/
inductive Middleware where
  | contextProcessors : Middleware
deriving DecidableEq, Repr

/-- A Sanic application: dynamic attributes holding registered environments
(keyed by `app_key` strings), the context-processor sequence stored under
`APP_CONTEXT_PROCESSORS_KEY` (a single fixed key, hence an `Option`), and
the `request_middleware` pipeline. -/
structure App where
  appId : Nat
  envs : List (String × Env)
  ctxProcessors : Option (List Proc)
  request_middleware : List Middleware

/-- A Sanic request: carries its owning application and its data. -/
structure Request where
  app : App
  data : RequestData

/-- `setup(app, *args, app_key, context_processors, filters, **kwargs)`.
The freshly constructed `jinja2.Environment(*args, **kwargs)` is passed in
as `envNew` (engine construction is external). Returns the updated
application together with the environment the call returns.

In the source, `env.globals['app'] = app` runs last, but `env` is the same
object the first call registered on the application, so the registered
environment carries the global; the pure model therefore finalizes the
environment before registering it. On the no-op path the previously
registered environment is a different object and stays untouched. -/
def setup (app : App) (envNew : Env) (app_key : String)
    (context_processors : List Proc)
    (filters : Option (List (String × Nat))) : App × Env :=
  let env : Env :=
    match filters with
    | some fs => { envNew with filters := aupdate envNew.filters fs }
    | none => envNew
  let env : Env :=
    { env with globals := ainsert env.globals ("app") (Val.appRef app.appId) }
  let app : App :=
    if (alookup app.envs app_key).isSome then app
    else { app with envs := ainsert app.envs app_key env }
  let app : App :=
    if context_processors.isEmpty then app
    else
      let app : App :=
        if app.ctxProcessors.isSome then app
        else { app with ctxProcessors := some context_processors }
      { app with
          request_middleware :=
            app.request_middleware ++ [Middleware.contextProcessors] }
  (app, env)

/-- `get_env(app, app_key)`: `getattr(app, app_key, None)`. -/
def get_env (app : App) (app_key : String) : Option Env :=
  alookup app.envs app_key

/-- An HTTP error: `sanic.exceptions.ServerError(message, status_code)`. -/
structure ServerError where
  message : String
  status_code : Nat
deriving DecidableEq, Repr

/-- The `context` argument of `render_string`: a mapping, Python `None`, or
some other non-mapping value carrying its Python type representation for
the error message. -/
inductive CtxArg where
  | mapping : Ctx → CtxArg
  | pyNone : CtxArg
  | nonMapping : String → CtxArg

/-- The `isinstance(context, Mapping)` test. -/
def CtxArg.isMapping : CtxArg → Bool
  | .mapping _ => true
  | _ => false

/-- The string `"{}".format(type(context))` used in the invalid-context
error message. -/
def CtxArg.typeName : CtxArg → String
  | .mapping _ => "<class 'dict'>"
  | .pyNone => "<class 'NoneType'>"
  | .nonMapping t => t

/-- `render_string(template_name, request, context, app_key)`: look up the
environment, resolve the template, validate the context is a mapping, merge
the per-request context under the caller context (caller wins; absence of
the per-request key is swallowed by `except KeyError: pass`), and render. -/
def render_string (template_name : String) (request : Request)
    (context : CtxArg) (app_key : String) : Except ServerError String :=
  match get_env request.app app_key with
  | none =>
      Except.error
        { message := "Template engine has not been initialized yet."
          status_code := 500 }
  | some env =>
    match alookup env.templates template_name with
    | none =>
        Except.error
          { message := "Template '" ++ template_name ++ "' not found"
            status_code := 500 }
    | some tmpl =>
      match context with
      | .mapping m =>
          let effective : Ctx :=
            match alookup request.data.store REQUEST_CONTEXT_KEY with
            | some prc => aupdate prc m
            | none => m
          Except.ok (tmpl effective)
      | c =>
          Except.error
            { message := "context should be mapping, not " ++ c.typeName
              status_code := 500 }

/-- A `sanic.response.HTTPResponse`. -/
structure HTTPResponse where
  body : String
  status : Nat
  headers : Option (List (String × String))
  content_type : String
deriving DecidableEq, Repr

/-- `render_template(template_name, request, context, app_key, encoding,
headers, status)`: replace a `None` context by `{}`, render the string, and
wrap it into an `HTTPResponse` with content type
`"text/html; charset={encoding}"`. -/
def render_template (template_name : String) (request : Request)
    (context : CtxArg) (app_key : String) (encoding : String)
    (headers : Option (List (String × String))) (status : Nat) :
    Except ServerError HTTPResponse :=
  let context : CtxArg :=
    match context with
    | .pyNone => .mapping []
    | c => c
  match render_string template_name request context app_key with
  | .error e => Except.error e
  | .ok text =>
      Except.ok
        { body := text, status := status, headers := headers
          content_type := "text/html; charset=" ++ encoding }

/-- What a decorated handler returns: an already-built `HTTPResponse`, or
any other value used as the rendering context. -/
inductive HandlerResult where
  | resp : HTTPResponse → HandlerResult
  | ctx : CtxArg → HandlerResult

/-- The `template(template_name, app_key, encoding, headers, status)`
decorator applied to a plain handler `func` (for plain handlers the request
is the first positional argument). The wrapper awaits the handler, passes
an `HTTPResponse` result through unchanged, and otherwise calls
`render_template` — forwarding only `app_key` and `encoding`, so
`render_template` is invoked with its defaults `headers=None, status=200`
whatever `headers` and `status` the factory received. -/
def template (template_name : String) (app_key : String) (encoding : String)
    (headers : Option (List (String × String))) (status : Nat)
    (func : Request → HandlerResult) (request : Request) :
    Except ServerError HTTPResponse :=
  match func request with
  | .resp r => Except.ok r
  | .ctx c => render_template template_name request c app_key encoding none 200

/-- One iteration of the middleware loop body:
`request[REQUEST_CONTEXT_KEY].update(await processor(request))`. -/
def mwStep (d : RequestData) (p : Proc) : RequestData :=
  { d with
      store :=
        ainsert d.store REQUEST_CONTEXT_KEY
          (aupdate ((alookup d.store REQUEST_CONTEXT_KEY).getD []) (p d)) }

/-- `context_processors_middleware(request)`: set
`request[REQUEST_CONTEXT_KEY] = {}`, then fold every registered processor's
output into it in registration order. `getattr` without a default raises if
the processors attribute is absent, modelled as `none`. -/
def context_processors_middleware (request : Request) : Option Request :=
  match request.app.ctxProcessors with
  | none => none
  | some procs =>
      some
        { request with
            data :=
              procs.foldl mwStep
                { request.data with
                    store :=
                      ainsert request.data.store REQUEST_CONTEXT_KEY [] } }

/-- The bundled `request_processor` context processor: returns
`{'request': request}`; the request value is opaque here, represented by a
string tag of its payload. -/
def request_processor (d : RequestData) : Ctx :=
  [(("request"), Val.str (toString (repr d.payload)))]

/-- Context processors that ignore the request and return fixed mappings,
as in the spec's P1/P2 example. -/
def constProcs (ms : List Ctx) : List Proc :=
  ms.map (fun m => fun _ => m)

/-- Iterate `setup` on the same application `n` times with the same
arguments, as a client calling setup repeatedly would. -/
def iterSetup (envNew : Env) (app_key : String) (ps : List Proc)
    (fs : Option (List (String × Nat))) : Nat → App → App
  | 0, a => a
  | n + 1, a => (setup (iterSetup envNew app_key ps fs n a) envNew app_key ps fs).1

/- Concrete instances used to evaluate the operations on closed inputs. -/

/-- A greeting template: renders the `name` value of its context. -/
def greetTmpl : Tmpl := fun c =>
  match alookup c ("name") with
  | some (Val.str s) => ("Hello ") ++ s
  | _ => ("?")

/-- An environment holding `greet.html`. -/
def greetEnv : Env := Env.mk 1 [] [] [(("greet.html"), greetTmpl)]

/-- An application with `greetEnv` registered under the default key. -/
def greetApp : App := App.mk 3 [(APP_KEY, greetEnv)] none []

/-- A request on `greetApp` whose per-request context is `site=docs`. -/
def greetRequest : Request :=
  Request.mk greetApp
    (RequestData.mk [(REQUEST_CONTEXT_KEY, [(("site"), Val.str ("docs"))])] [])

/-- A request on `greetApp` carrying no per-request context. -/
def bareGreetRequest : Request := Request.mk greetApp (RequestData.mk [] [])

/-- A template that reports whether it received exactly the merged context
x=1, y=9, z=3 of the spec's merge example. -/
def probeTmpl : Tmpl := fun c =>
  if c = [(("x"), Val.num 1), (("y"), Val.num 9), (("z"), Val.num 3)]
  then ("xyz-merged") else ("unexpected")

/-- An environment holding `probe.html`. -/
def probeEnv : Env := Env.mk 4 [] [] [(("probe.html"), probeTmpl)]

/-- An application with `probeEnv` registered under the default key. -/
def probeApp : App := App.mk 5 [(APP_KEY, probeEnv)] none []

/-- A request on `probeApp` whose per-request context is x=1, y=2. -/
def probeRequest : Request :=
  Request.mk probeApp
    (RequestData.mk
      [(REQUEST_CONTEXT_KEY, [(("x"), Val.num 1), (("y"), Val.num 2)])] [])

/-- An application with nothing registered at all. -/
def emptyApp : App := App.mk 0 [] none []

/-- A request on the empty application. -/
def emptyRequest : Request := Request.mk emptyApp (RequestData.mk [] [])

/-- Decidable equality for `Except`, so concrete runs of the fallible
operations can be checked by `decide`. -/
instance exceptDecEq {ε α : Type} [DecidableEq ε] [DecidableEq α] :
    DecidableEq (Except ε α)
  | Except.error e, Except.error f =>
      if h : e = f then Decidable.isTrue (by rw [h])
      else Decidable.isFalse (fun hh => by injection hh; exact h (by assumption))
  | Except.error _, Except.ok _ => Decidable.isFalse (fun hh => Except.noConfusion hh)
  | Except.ok _, Except.error _ => Decidable.isFalse (fun hh => Except.noConfusion hh)
  | Except.ok a, Except.ok b =>
      if h : a = b then Decidable.isTrue (by rw [h])
      else Decidable.isFalse (fun hh => by injection hh; exact h (by assumption))

/- Association-list lemmas: how `ainsert` / `aupdate` interact with
`alookup`, mirroring Python dict assignment and `dict.update`. -/

theorem alookup_ainsert_self {α : Type} (d : List (String × α)) (k : String) (v : α) :
    alookup (ainsert d k v) k = some v := by
  induction d with
  | nil => simp [ainsert, alookup]
  | cons hd tl ih =>
    obtain ⟨k1, w⟩ := hd
    by_cases h : k1 = k
    · simp [ainsert, h, alookup]
    · simp [ainsert, h, alookup, ih]

theorem alookup_ainsert_ne {α : Type} (d : List (String × α)) (k k' : String) (v : α)
    (h : k' ≠ k) : alookup (ainsert d k v) k' = alookup d k' := by
  have h' : ¬(k = k') := fun hh => h hh.symm
  induction d with
  | nil => simp [ainsert, alookup, h']
  | cons hd tl ih =>
    obtain ⟨k1, w⟩ := hd
    by_cases h1 : k1 = k
    · subst h1
      simp [ainsert, alookup, h']
    · simp only [ainsert, if_neg h1, alookup]
      by_cases h2 : k1 = k'
      · simp [h2]
      · simp [h2, ih]

theorem ainsert_ainsert {α : Type} (d : List (String × α)) (k : String) (v w : α) :
    ainsert (ainsert d k v) k w = ainsert d k w := by
  induction d with
  | nil => simp [ainsert]
  | cons hd tl ih =>
    obtain ⟨k1, u⟩ := hd
    by_cases h : k1 = k
    · simp [ainsert, h]
    · simp [ainsert, h, ih]

theorem alookup_eq_none_of_not_mem {α : Type} (m : List (String × α)) (k : String)
    (h : k ∉ m.map Prod.fst) : alookup m k = none := by
  induction m with
  | nil => rfl
  | cons hd tl ih =>
    obtain ⟨k1, v⟩ := hd
    simp only [List.map_cons, List.mem_cons] at h
    push_neg at h
    have h1 : ¬(k1 = k) := fun hh => h.1 hh.symm
    simp [alookup, h1, ih h.2]

theorem alookup_aupdate_of_none {α : Type} (d m : List (String × α)) (k : String)
    (h : alookup m k = none) : alookup (aupdate d m) k = alookup d k := by
  induction m generalizing d with
  | nil => rfl
  | cons hd tl ih =>
    obtain ⟨k1, v⟩ := hd
    simp only [alookup] at h
    by_cases h1 : k1 = k
    · simp [h1] at h
    · simp only [if_neg h1] at h
      have : aupdate d ((k1, v) :: tl) = aupdate (ainsert d k1 v) tl := rfl
      rw [this, ih (ainsert d k1 v) h, alookup_ainsert_ne _ _ _ _ (fun hh => h1 hh.symm)]

theorem alookup_aupdate_of_some {α : Type} (d m : List (String × α)) (k : String) (v : α)
    (hnd : (m.map Prod.fst).Nodup) (h : alookup m k = some v) :
    alookup (aupdate d m) k = some v := by
  induction m generalizing d with
  | nil => exact absurd h (by simp [alookup])
  | cons hd tl ih =>
    obtain ⟨k1, w⟩ := hd
    simp only [List.map_cons, List.nodup_cons] at hnd
    have hup : aupdate d ((k1, w) :: tl) = aupdate (ainsert d k1 w) tl := rfl
    by_cases h1 : k1 = k
    · subst h1
      have hv : w = v := by simpa [alookup] using h
      rw [hup, alookup_aupdate_of_none (ainsert d k1 w) tl k1
            (alookup_eq_none_of_not_mem tl k1 hnd.1),
          alookup_ainsert_self, hv]
    · have h2 : alookup tl k = some v := by simpa [alookup, h1] using h
      rw [hup]
      exact ih (ainsert d k1 w) hnd.2 h2

/-- Folding the middleware step over constant processors starting from a
store whose per-request slot holds `acc` accumulates `aupdate` over the
processors' mappings. -/
theorem foldl_mwStep_const (ms : List Ctx) (s : List (String × Ctx)) (p : Ctx) (acc : Ctx) :
    (constProcs ms).foldl mwStep
        (RequestData.mk (ainsert s REQUEST_CONTEXT_KEY acc) p)
      = RequestData.mk (ainsert s REQUEST_CONTEXT_KEY (ms.foldl aupdate acc)) p := by
  induction ms generalizing acc with
  | nil => rfl
  | cons m ms ih =>
    have h1 : constProcs (m :: ms) = ((fun _ => m) : Proc) :: constProcs ms := rfl
    have hstep :
        mwStep (RequestData.mk (ainsert s REQUEST_CONTEXT_KEY acc) p) (fun _ => m)
          = RequestData.mk (ainsert s REQUEST_CONTEXT_KEY (aupdate acc m)) p := by
      simp [mwStep, alookup_ainsert_self, ainsert_ainsert]
    rw [h1, List.foldl_cons, hstep, ih (aupdate acc m)]
    rfl

/-- C3: for every request and every registered sequence of context
processors (here: processors returning fixed mappings, as in the spec's
example), the middleware hook creates a fresh empty per-request context
under `REQUEST_CONTEXT_KEY` on the request and folds each processor's
returned mapping into it in registration order, a later processor's keys
overriding earlier ones on collision; the witness checks the P1/P2
example yielding a=1, b=3, c=4. -/
theorem middleware_folds_processors_in_order (app : App) (s : List (String × Ctx))
    (p : Ctx) (ms : List Ctx)
    (h : app.ctxProcessors = some (constProcs ms)) :
    context_processors_middleware (Request.mk app (RequestData.mk s p))
      = some (Request.mk app
          (RequestData.mk (ainsert s REQUEST_CONTEXT_KEY (ms.foldl aupdate [])) p)) := by
  unfold context_processors_middleware
  simp only [h]
  show some (Request.mk app
      ((constProcs ms).foldl mwStep (RequestData.mk (ainsert s REQUEST_CONTEXT_KEY []) p)))
    = _
  rw [foldl_mwStep_const]

/-- C3 witness: P1 returns a=1, b=2 and P2 returns b=3, c=4; after the
middleware runs, the per-request context equals a=1, b=3, c=4. -/
theorem middleware_folds_processors_in_order_witness :
    (App.mk 7 [] (some (constProcs
        [[(("a"), Val.num 1), (("b"), Val.num 2)],
         [(("b"), Val.num 3), (("c"), Val.num 4)]])) []).ctxProcessors
      = some (constProcs
          [[(("a"), Val.num 1), (("b"), Val.num 2)],
           [(("b"), Val.num 3), (("c"), Val.num 4)]])
    ∧ context_processors_middleware
        (Request.mk (App.mk 7 [] (some (constProcs
            [[(("a"), Val.num 1), (("b"), Val.num 2)],
             [(("b"), Val.num 3), (("c"), Val.num 4)]])) [])
          (RequestData.mk [] []))
      = some (Request.mk (App.mk 7 [] (some (constProcs
            [[(("a"), Val.num 1), (("b"), Val.num 2)],
             [(("b"), Val.num 3), (("c"), Val.num 4)]])) [])
          (RequestData.mk
            [(REQUEST_CONTEXT_KEY,
              [(("a"), Val.num 1), (("b"), Val.num 3), (("c"), Val.num 4)])] [])) :=
  ⟨rfl, middleware_folds_processors_in_order
      (App.mk 7 [] (some (constProcs
        [[(("a"), Val.num 1), (("b"), Val.num 2)],
         [(("b"), Val.num 3), (("c"), Val.num 4)]])) [])
      [] []
      [[(("a"), Val.num 1), (("b"), Val.num 2)],
       [(("b"), Val.num 3), (("c"), Val.num 4)]] rfl⟩

/-- C5: calling `setup` with a key that is already registered on the
application does not overwrite: `get_env` afterwards returns exactly what
it returned before the call, never the second environment instance. -/
theorem setup_noop_when_key_registered (app : App) (envNew : Env) (app_key : String)
    (ps : List Proc) (fs : Option (List (String × Nat)))
    (h : (get_env app app_key).isSome = true) :
    get_env (setup app envNew app_key ps fs).1 app_key = get_env app app_key := by
  unfold setup get_env at *
  simp only [h, if_true]
  split
  · simp
  · split <;> simp

/-- C5 witness: a first `setup` registers environment 1; a second `setup`
with environment 2 under the same key leaves lookup returning the
environment with id 1, not 2. -/
theorem setup_noop_when_key_registered_witness :
    ((get_env (setup (App.mk 0 [] none []) (Env.mk 1 [] [] []) APP_KEY [] none).1
        APP_KEY).isSome = true)
    ∧ get_env (setup (setup (App.mk 0 [] none []) (Env.mk 1 [] [] []) APP_KEY [] none).1
          (Env.mk 2 [] [] []) APP_KEY [] none).1 APP_KEY
      = get_env (setup (App.mk 0 [] none []) (Env.mk 1 [] [] []) APP_KEY [] none).1 APP_KEY
    ∧ Option.map Env.envId
        (get_env (setup (setup (App.mk 0 [] none []) (Env.mk 1 [] [] []) APP_KEY [] none).1
            (Env.mk 2 [] [] []) APP_KEY [] none).1 APP_KEY)
      = some 1 :=
  ⟨rfl, setup_noop_when_key_registered _ _ _ _ _ rfl, rfl⟩

/-- C7: a handler decorated with `template(...)` whose return value is an
already-built `HTTPResponse` has that exact object returned unchanged,
whatever the state of the application; the witness runs this on an
application with no environment registered, where the render path would
necessarily fail, showing the render path is not executed. -/
theorem template_returns_response_unchanged (tname app_key enc : String)
    (headers : Option (List (String × String))) (status : Nat)
    (func : Request → HandlerResult) (request : Request) (r : HTTPResponse)
    (h : func request = HandlerResult.resp r) :
    template tname app_key enc headers status func request = Except.ok r := by
  unfold template
  rw [h]

/-- C7 witness: on an application with no environment registered, a handler
returning a prebuilt 204 response is passed through untouched. -/
theorem template_returns_response_unchanged_witness :
    ((fun (_ : Request) => HandlerResult.resp (HTTPResponse.mk ("done") 204 none ("text/plain")))
        (Request.mk (App.mk 0 [] none []) (RequestData.mk [] []))
      = HandlerResult.resp (HTTPResponse.mk ("done") 204 none ("text/plain")))
    ∧ get_env (App.mk 0 [] none []) APP_KEY = none
    ∧ template ("greet.html") APP_KEY ("utf-8") none 200
        (fun _ => HandlerResult.resp (HTTPResponse.mk ("done") 204 none ("text/plain")))
        (Request.mk (App.mk 0 [] none []) (RequestData.mk [] []))
      = Except.ok (HTTPResponse.mk ("done") 204 none ("text/plain")) :=
  ⟨rfl, rfl, template_returns_response_unchanged _ _ _ _ _ _ _ _ rfl⟩

/-- C8: every call to `setup` runs `env.globals['app'] = app` on the
environment it builds and returns — including when an environment is
already registered under the key and the registration itself is a no-op,
the seeding still executes on that call's environment. -/
theorem setup_always_seeds_app_global (app : App) (envNew : Env) (app_key : String)
    (ps : List Proc) (fs : Option (List (String × Nat))) :
    alookup ((setup app envNew app_key ps fs).2).globals ("app")
      = some (Val.appRef app.appId) := by
  unfold setup
  cases fs <;> simp [alookup_ainsert_self]

/-- C1: a handler decorated with `template(template_name)` (default
encoding, headers and status) that returns a mapping yields a response with
content type `text/html; charset=utf-8`, status 200, and body equal to the
engine's render of the named template with the returned mapping merged
over the per-request context (caller keys winning). -/
theorem template_renders_mapping_over_request_context
    (tname app_key : String) (env : Env) (tmpl : Tmpl) (prc m : Ctx)
    (func : Request → HandlerResult) (request : Request)
    (henv : get_env request.app app_key = some env)
    (htmpl : alookup env.templates tname = some tmpl)
    (hprc : alookup request.data.store REQUEST_CONTEXT_KEY = some prc)
    (hfunc : func request = HandlerResult.ctx (CtxArg.mapping m)) :
    template tname app_key ("utf-8") none 200 func request
      = Except.ok (HTTPResponse.mk (tmpl (aupdate prc m)) 200 none
          ("text/html; charset=utf-8")) := by
  simp only [template, render_template, render_string, hfunc, henv, htmpl, hprc]
  rfl

/-- C1 witness: the handler returns name=Ann for `greet.html`; the response
is 200, `text/html; charset=utf-8`, with body `Hello Ann` (the render of
`greet.html` over site=docs merged with name=Ann). -/
theorem template_renders_mapping_over_request_context_witness :
    get_env greetRequest.app APP_KEY = some greetEnv
    ∧ alookup greetEnv.templates ("greet.html") = some greetTmpl
    ∧ alookup greetRequest.data.store REQUEST_CONTEXT_KEY
        = some [(("site"), Val.str ("docs"))]
    ∧ ((fun (_ : Request) => HandlerResult.ctx (CtxArg.mapping [(("name"), Val.str ("Ann"))]))
          greetRequest
        = HandlerResult.ctx (CtxArg.mapping [(("name"), Val.str ("Ann"))]))
    ∧ template ("greet.html") APP_KEY ("utf-8") none 200
        (fun _ => HandlerResult.ctx (CtxArg.mapping [(("name"), Val.str ("Ann"))]))
        greetRequest
      = Except.ok (HTTPResponse.mk ("Hello Ann") 200 none
          ("text/html; charset=utf-8")) :=
  ⟨rfl, rfl, rfl, rfl,
    template_renders_mapping_over_request_context ("greet.html") APP_KEY greetEnv
      greetTmpl [(("site"), Val.str ("docs"))] [(("name"), Val.str ("Ann"))]
      (fun _ => HandlerResult.ctx (CtxArg.mapping [(("name"), Val.str ("Ann"))]))
      greetRequest rfl rfl rfl rfl⟩

/-- C2 counterexample: with no environment registered, `render_string` on a
non-mapping context raises the engine-not-initialized error, not the
invalid-context error — refuting "regardless of whether an environment is
registered". -/
theorem render_string_nonmapping_not_invalid_context_counterexample :
    render_string ("greet.html") emptyRequest (CtxArg.nonMapping ("<class 'int'>")) APP_KEY
      = Except.error (ServerError.mk ("Template engine has not been initialized yet.") 500)
    ∧ render_string ("greet.html") emptyRequest (CtxArg.nonMapping ("<class 'int'>")) APP_KEY
      ≠ Except.error (ServerError.mk ("context should be mapping, not <class 'int'>") 500) := by
  constructor
  · rfl
  · decide

/-- C2 (amended): when an environment is registered under the key and the
template name resolves, `render_string` on any non-mapping context raises
the invalid-context server error with status 500. -/
theorem render_string_invalid_context_amended
    (tname app_key : String) (env : Env) (tmpl : Tmpl) (c : CtxArg) (request : Request)
    (henv : get_env request.app app_key = some env)
    (htmpl : alookup env.templates tname = some tmpl)
    (hc : c.isMapping = false) :
    render_string tname request c app_key
      = Except.error
          (ServerError.mk (("context should be mapping, not ") ++ c.typeName) 500) := by
  simp only [render_string, henv, htmpl]
  cases c with
  | mapping m => simp [CtxArg.isMapping] at hc
  | pyNone => rfl
  | nonMapping t => rfl

/-- C2 witness: with `greet.html` registered and resolvable, an integer
context raises the invalid-context error. -/
theorem render_string_invalid_context_amended_witness :
    get_env greetRequest.app APP_KEY = some greetEnv
    ∧ alookup greetEnv.templates ("greet.html") = some greetTmpl
    ∧ (CtxArg.nonMapping ("<class 'int'>")).isMapping = false
    ∧ render_string ("greet.html") greetRequest (CtxArg.nonMapping ("<class 'int'>")) APP_KEY
      = Except.error (ServerError.mk ("context should be mapping, not <class 'int'>") 500) :=
  ⟨rfl, rfl, rfl,
    render_string_invalid_context_amended ("greet.html") APP_KEY greetEnv greetTmpl
      (CtxArg.nonMapping ("<class 'int'>")) greetRequest rfl rfl rfl⟩

/-- C4: when a per-request context is present, the mapping passed to the
template equals the per-request context updated with the caller context,
and on that merge caller-supplied keys strictly override per-request keys
(keys absent from the caller context fall back to the per-request value). -/
theorem render_string_caller_context_wins
    (tname app_key : String) (env : Env) (tmpl : Tmpl) (prc m : Ctx) (request : Request)
    (henv : get_env request.app app_key = some env)
    (htmpl : alookup env.templates tname = some tmpl)
    (hprc : alookup request.data.store REQUEST_CONTEXT_KEY = some prc) :
    render_string tname request (CtxArg.mapping m) app_key
      = Except.ok (tmpl (aupdate prc m))
    ∧ (∀ k v, (m.map Prod.fst).Nodup → alookup m k = some v →
        alookup (aupdate prc m) k = some v)
    ∧ (∀ k, alookup m k = none → alookup (aupdate prc m) k = alookup prc k) := by
  refine ⟨?_, ?_, ?_⟩
  · simp only [render_string, henv, htmpl, hprc]
  · exact fun k v hnd hk => alookup_aupdate_of_some prc m k v hnd hk
  · exact fun k hk => alookup_aupdate_of_none prc m k hk

/-- C4 witness: per-request context x=1, y=2 merged with caller context
y=9, z=3 hands the template exactly x=1, y=9, z=3. -/
theorem render_string_caller_context_wins_witness :
    get_env probeRequest.app APP_KEY = some probeEnv
    ∧ alookup probeEnv.templates ("probe.html") = some probeTmpl
    ∧ alookup probeRequest.data.store REQUEST_CONTEXT_KEY
        = some [(("x"), Val.num 1), (("y"), Val.num 2)]
    ∧ render_string ("probe.html") probeRequest
        (CtxArg.mapping [(("y"), Val.num 9), (("z"), Val.num 3)]) APP_KEY
      = Except.ok ("xyz-merged") :=
  ⟨rfl, rfl, rfl,
    (render_string_caller_context_wins ("probe.html") APP_KEY probeEnv probeTmpl
      [(("x"), Val.num 1), (("y"), Val.num 2)] [(("y"), Val.num 9), (("z"), Val.num 3)]
      probeRequest rfl rfl rfl).1⟩

/-- C6: when the request carries no per-request context, `render_string`
does not fail on its absence and renders with the caller-supplied context
alone. -/
theorem render_string_without_request_context
    (tname app_key : String) (env : Env) (tmpl : Tmpl) (m : Ctx) (request : Request)
    (henv : get_env request.app app_key = some env)
    (htmpl : alookup env.templates tname = some tmpl)
    (hprc : alookup request.data.store REQUEST_CONTEXT_KEY = none) :
    render_string tname request (CtxArg.mapping m) app_key = Except.ok (tmpl m) := by
  simp only [render_string, henv, htmpl, hprc]

/-- C6 witness: on a request with no per-request context, rendering
`greet.html` with name=Ann succeeds and uses the caller context alone. -/
theorem render_string_without_request_context_witness :
    get_env bareGreetRequest.app APP_KEY = some greetEnv
    ∧ alookup greetEnv.templates ("greet.html") = some greetTmpl
    ∧ alookup bareGreetRequest.data.store REQUEST_CONTEXT_KEY = none
    ∧ render_string ("greet.html") bareGreetRequest
        (CtxArg.mapping [(("name"), Val.str ("Ann"))]) APP_KEY
      = Except.ok ("Hello Ann") :=
  ⟨rfl, rfl, rfl,
    render_string_without_request_context ("greet.html") APP_KEY greetEnv greetTmpl
      [(("name"), Val.str ("Ann"))] bareGreetRequest rfl rfl rfl⟩

/-- C9: the wrapper produced by `template(...)` calls `render_template`
without forwarding the factory's `headers` and `status` arguments, so for a
mapping-returning handler the response always has status 200 and headers
`None`, whatever `headers` and `status` were passed to the factory. -/
theorem template_ignores_decorator_headers_status
    (tname app_key enc : String) (headers : Option (List (String × String)))
    (status : Nat) (env : Env) (tmpl : Tmpl) (m : Ctx)
    (func : Request → HandlerResult) (request : Request)
    (henv : get_env request.app app_key = some env)
    (htmpl : alookup env.templates tname = some tmpl)
    (hfunc : func request = HandlerResult.ctx (CtxArg.mapping m)) :
    template tname app_key enc headers status func request
      = Except.ok (HTTPResponse.mk
          (tmpl (match alookup request.data.store REQUEST_CONTEXT_KEY with
                 | some prc => aupdate prc m
                 | none => m))
          200 none (("text/html; charset=") ++ enc)) := by
  simp only [template, render_template, render_string, hfunc, henv, htmpl]

/-- C9 witness: even with `headers=[('X-Custom','1')]` and `status=418`
passed to the factory, the produced response has status 200 and no
headers. -/
theorem template_ignores_decorator_headers_status_witness :
    get_env greetRequest.app APP_KEY = some greetEnv
    ∧ alookup greetEnv.templates ("greet.html") = some greetTmpl
    ∧ ((fun (_ : Request) => HandlerResult.ctx (CtxArg.mapping [(("name"), Val.str ("Ann"))]))
          greetRequest
        = HandlerResult.ctx (CtxArg.mapping [(("name"), Val.str ("Ann"))]))
    ∧ template ("greet.html") APP_KEY ("utf-8") (some [(("X-Custom"), ("1"))]) 418
        (fun _ => HandlerResult.ctx (CtxArg.mapping [(("name"), Val.str ("Ann"))]))
        greetRequest
      = Except.ok (HTTPResponse.mk ("Hello Ann") 200 none
          ("text/html; charset=utf-8")) :=
  ⟨rfl, rfl, rfl,
    template_ignores_decorator_headers_status ("greet.html") APP_KEY ("utf-8")
      (some [(("X-Custom"), ("1"))]) 418 greetEnv greetTmpl
      [(("name"), Val.str ("Ann"))]
      (fun _ => HandlerResult.ctx (CtxArg.mapping [(("name"), Val.str ("Ann"))]))
      greetRequest rfl rfl rfl⟩

/-- One `setup` call with non-empty processors appends the middleware hook
to the pipeline unconditionally and stores the processor sequence only if
none was stored before. -/
theorem setup_nonempty_processors_effect (a : App) (envNew : Env) (app_key : String)
    (ps : List Proc) (fs : Option (List (String × Nat))) (h : ps.isEmpty = false) :
    (setup a envNew app_key ps fs).1.request_middleware
        = a.request_middleware ++ [Middleware.contextProcessors]
    ∧ (setup a envNew app_key ps fs).1.ctxProcessors = some (a.ctxProcessors.getD ps) := by
  cases hc : a.ctxProcessors <;>
    by_cases he : (alookup a.envs app_key).isSome = true <;>
      constructor <;> simp [setup, h, hc, he]

/-- C10: with a non-empty processor sequence, every `setup` call appends
the middleware hook once more, so after `n` calls the hook occurs `n` more
times in the pipeline, while the stored processor sequence after at least
one call stays whatever the first call stored. -/
theorem setup_appends_middleware_per_call (a : App) (envNew : Env) (app_key : String)
    (ps : List Proc) (fs : Option (List (String × Nat))) (n : Nat)
    (h : ps.isEmpty = false) :
    ((iterSetup envNew app_key ps fs n a).request_middleware.count
          Middleware.contextProcessors
        = a.request_middleware.count Middleware.contextProcessors + n)
    ∧ ((iterSetup envNew app_key ps fs n a).ctxProcessors
        = if n = 0 then a.ctxProcessors else some (a.ctxProcessors.getD ps)) := by
  induction n with
  | zero => simp [iterSetup]
  | succ k ih =>
    obtain ⟨ih1, ih2⟩ := ih
    have hs := setup_nonempty_processors_effect (iterSetup envNew app_key ps fs k a)
      envNew app_key ps fs h
    have hone : [Middleware.contextProcessors].count Middleware.contextProcessors = 1 := rfl
    constructor
    · rw [show iterSetup envNew app_key ps fs (k + 1) a
            = (setup (iterSetup envNew app_key ps fs k a) envNew app_key ps fs).1 from rfl,
          hs.1, List.count_append, ih1, hone]
      omega
    · rw [show iterSetup envNew app_key ps fs (k + 1) a
            = (setup (iterSetup envNew app_key ps fs k a) envNew app_key ps fs).1 from rfl,
          hs.2, ih2]
      cases k with
      | zero => simp
      | succ j => simp

/-- C10 witness: two `setup` calls with one processor on a fresh
application leave the hook twice in the pipeline and the processor
sequence stored once. -/
theorem setup_appends_middleware_per_call_witness :
    (([((fun _ => []) : Proc)].isEmpty = false)
    ∧ (((iterSetup (Env.mk 1 [] [] []) APP_KEY [fun _ => []] none 2 emptyApp).request_middleware.count
          Middleware.contextProcessors
        = emptyApp.request_middleware.count Middleware.contextProcessors + 2)
      ∧ ((iterSetup (Env.mk 1 [] [] []) APP_KEY [fun _ => []] none 2 emptyApp).ctxProcessors
        = if 2 = 0 then emptyApp.ctxProcessors
          else some (emptyApp.ctxProcessors.getD [fun _ => []])))) :=
  ⟨rfl, setup_appends_middleware_per_call emptyApp (Env.mk 1 [] [] []) APP_KEY
    [fun _ => []] none 2 rfl⟩

end Jinja2Sanic
